import Mathlib

/-! Verification of the windsurf-throttle API client (`src/windsurf_throttle/api.py`)
and the bulk cap calculator (`src/windsurf_throttle/app.py`,
`render_set_individual_section`), as a shallow embedding in Lean.

The Python module reads the service credential from the environment
(`SERVICE_KEY`, a `str | None`); here it is an explicit `Option String`
parameter.  The HTTP layer is modelled by passing a `net` function from the
posted payload to the response; each operation returns the `Except` result
together with the number of network calls it made (0 or 1), so "fails before
any network activity" is the statement that the count is 0.
-/

/-- A JSON value as it can appear in a request payload: the Python code only
ever inserts strings, ints and booleans; `null` is included to state that no
key is ever sent with an explicit null. -/
inductive JsonVal where
  | null
  | str (s : String)
  | int (n : Int)
  | bool (b : Bool)
deriving DecidableEq, Repr

/-- A request body: a JSON object, modelled as an insertion-ordered
association list, mirroring a Python dict. -/
abbrev Payload := List (String × JsonVal)

/-- Python truthiness of a `str | None` value: `None` and `""` are falsy. -/
def optStrTruthy : Option String → Bool
  | none => false
  | some s => !(s == "")

/-- Model of `get_service_key` (api.py lines 26-30): `if not SERVICE_KEY` raises
a `WindsurfAPIError`.  Both an unset and an empty key are rejected. -/
def get_service_key (sk : Option String) : Except String String :=
  match sk with
  | none => Except.error "WINDSURF_SERVICE_KEY not found in environment"
  | some s =>
    if s == "" then Except.error "WINDSURF_SERVICE_KEY not found in environment"
    else Except.ok s

/-- The pure payload-building stage of `get_usage_config` (api.py lines
51-61): credential first, then the `if/elif/elif/else` chain over
`team_level`, `group_id`, `user_email`. -/
def get_usage_config_payload (sk : Option String) (team_level : Bool)
    (group_id user_email : Option String) : Except String Payload :=
  match get_service_key sk with
  | Except.error e => Except.error e
  | Except.ok service_key =>
    let payload : Payload := [("service_key", JsonVal.str service_key)]
    if team_level then
      Except.ok (payload ++ [("team_level", JsonVal.bool true)])
    else if optStrTruthy group_id then
      Except.ok (payload ++ [("group_id", JsonVal.str (group_id.getD ""))])
    else if optStrTruthy user_email then
      Except.ok (payload ++ [("user_email", JsonVal.str (user_email.getD ""))])
    else
      Except.error "Must specify one of: team_level, group_id, or user_email"

/-- The pure payload-building stage of `set_usage_config` (api.py lines
144-161): credential, then the update-shape `if/elif/else`
(`clear_add_on_credit_cap` / `set_add_on_credit_cap is not None`), then the
target `if/elif/elif/else` chain. -/
def set_usage_config_payload (sk : Option String)
    (set_add_on_credit_cap : Option Int) (clear_add_on_credit_cap : Bool)
    (team_level : Bool) (group_id user_email : Option String) :
    Except String Payload :=
  match get_service_key sk with
  | Except.error e => Except.error e
  | Except.ok service_key =>
    let p0 : Payload := [("service_key", JsonVal.str service_key)]
    let afterUpdate : Except String Payload :=
      if clear_add_on_credit_cap then
        Except.ok (p0 ++ [("clear_add_on_credit_cap", JsonVal.bool true)])
      else
        match set_add_on_credit_cap with
        | some n => Except.ok (p0 ++ [("set_add_on_credit_cap", JsonVal.int n)])
        | none =>
          Except.error "Must specify either set_add_on_credit_cap or clear_add_on_credit_cap"
    match afterUpdate with
    | Except.error e => Except.error e
    | Except.ok p =>
      if team_level then
        Except.ok (p ++ [("team_level", JsonVal.bool true)])
      else if optStrTruthy group_id then
        Except.ok (p ++ [("group_id", JsonVal.str (group_id.getD ""))])
      else if optStrTruthy user_email then
        Except.ok (p ++ [("user_email", JsonVal.str (user_email.getD ""))])
      else
        Except.error "Must specify one of: team_level, group_id, or user_email"

/-- The pure payload-building stage of `get_team_users` (api.py lines
96-104): credential, then each optional filter is added only when truthy. -/
def get_team_users_payload (sk : Option String)
    (group_name start_timestamp end_timestamp : Option String) :
    Except String Payload :=
  match get_service_key sk with
  | Except.error e => Except.error e
  | Except.ok service_key =>
    let p0 : Payload := [("service_key", JsonVal.str service_key)]
    let p1 := if optStrTruthy group_name then
        p0 ++ [("group_name", JsonVal.str (group_name.getD ""))] else p0
    let p2 := if optStrTruthy start_timestamp then
        p1 ++ [("start_timestamp", JsonVal.str (start_timestamp.getD ""))] else p1
    let p3 := if optStrTruthy end_timestamp then
        p2 ++ [("end_timestamp", JsonVal.str (end_timestamp.getD ""))] else p2
    Except.ok p3

/-- httpx success test used by `response.raise_for_status()`: 2xx status. -/
def is2xx (status : Nat) : Bool := 200 ≤ status && status < 300

/-- The error message format of the `httpx.HTTPStatusError` handler shared by
all three operations: an f-string interpolating the status code and body text
as `HTTP error: <code> - <text>`. -/
def httpErrMsg (status : Nat) (text : String) : String :=
  "HTTP error: " ++ toString status ++ " - " ++ text

/-- An HTTP response to a config call: status, body text, and the parsed JSON
object (opaque to the client). -/
structure ConfigResponse where
  status : Nat
  text : String
  body : List (String × JsonVal)
deriving DecidableEq, Repr

/-- One row of the `userTableStats` array returned by `UserPageAnalytics`. -/
structure TeamUserRecord where
  name : String
  email : String
deriving DecidableEq, Repr

/-- An HTTP response to `get_team_users`: status, body text, and the
`userTableStats` field of the parsed JSON object (`none` when absent). -/
structure TeamUsersResponse where
  status : Nat
  text : String
  userTableStats : Option (List TeamUserRecord)
deriving DecidableEq, Repr

/-- Response handling shared by `get_usage_config` and `set_usage_config`
(api.py lines 70-73 and 170-173): `raise_for_status` then `response.json()`;
a non-2xx status becomes a `WindsurfAPIError` carrying status and body. -/
def handle_config_response (resp : ConfigResponse) :
    Except String (List (String × JsonVal)) :=
  if is2xx resp.status then Except.ok resp.body
  else Except.error (httpErrMsg resp.status resp.text)

/-- Response handling of `get_team_users` (api.py lines 113-117):
`raise_for_status`, then `data.get("userTableStats", [])`. -/
def handle_team_users_response (resp : TeamUsersResponse) :
    Except String (List TeamUserRecord) :=
  if is2xx resp.status then Except.ok (resp.userTableStats.getD [])
  else Except.error (httpErrMsg resp.status resp.text)

/-- Model of `get_usage_config` (api.py lines 33-75): build the payload, POST it, and
handle the response.  The second component counts network calls. -/
def get_usage_config (sk : Option String) (team_level : Bool)
    (group_id user_email : Option String)
    (net : Payload → ConfigResponse) :
    Except String (List (String × JsonVal)) × Nat :=
  match get_usage_config_payload sk team_level group_id user_email with
  | Except.error e => (Except.error e, 0)
  | Except.ok payload => (handle_config_response (net payload), 1)

/-- Model of `set_usage_config` (api.py lines 122-175): build the payload, POST it, and
handle the response.  The second component counts network calls. -/
def set_usage_config (sk : Option String)
    (set_add_on_credit_cap : Option Int) (clear_add_on_credit_cap : Bool)
    (team_level : Bool) (group_id user_email : Option String)
    (net : Payload → ConfigResponse) :
    Except String (List (String × JsonVal)) × Nat :=
  match set_usage_config_payload sk set_add_on_credit_cap clear_add_on_credit_cap
      team_level group_id user_email with
  | Except.error e => (Except.error e, 0)
  | Except.ok payload => (handle_config_response (net payload), 1)

/-- Model of `get_team_users` (api.py lines 78-119): build the payload, POST it, and
handle the response.  The second component counts network calls. -/
def get_team_users (sk : Option String)
    (group_name start_timestamp end_timestamp : Option String)
    (net : Payload → TeamUsersResponse) :
    Except String (List TeamUserRecord) × Nat :=
  match get_team_users_payload sk group_name start_timestamp end_timestamp with
  | Except.error e => (Except.error e, 0)
  | Except.ok payload => (handle_team_users_response (net payload), 1)

/-- An annotated output row of the bulk cap calculator. -/
structure CapRow where
  email : String
  credits_used : Int
  addon_used : Int
  proposed_cap : Int
  total_available : Int
deriving DecidableEq, Repr

/-- The bulk cap calculation of `render_set_individual_section` (app.py lines
342-345): filter rows with `credits_used > threshold`, then columnwise
`addon_used = credits_used - BASE_CREDITS`, `proposed_cap = addon_used +
buffer`, `total_available = BASE_CREDITS + proposed_cap`.  The pandas
boolean-mask filter preserves row order; `baseCredits` is the `BASE_CREDITS`
constant (500 in api.py line 14), kept as a parameter. -/
def bulk_cap_calc (rows : List (String × Int))
    (threshold buffer baseCredits : Int) : List CapRow :=
  let high_usage := rows.filter (fun r => r.2 > threshold)
  high_usage.map (fun r =>
    let addon_used := r.2 - baseCredits
    let proposed_cap := addon_used + buffer
    { email := r.1
      credits_used := r.2
      addon_used := addon_used
      proposed_cap := proposed_cap
      total_available := baseCredits + proposed_cap })

/-- Reference definition of the bulk cap calculator, written from the spec's
words: select exactly the rows with `creditsUsed > threshold` in input order,
and annotate each with `addonUsed = creditsUsed - baseCredits`,
`proposedCap = addonUsed + buffer`, `totalAvailable = baseCredits +
proposedCap`, with exact integer arithmetic and no clamping. -/
def bulk_cap_calc_ref (rows : List (String × Int))
    (threshold buffer baseCredits : Int) : List CapRow :=
  rows.filterMap (fun r =>
    if r.2 > threshold then
      some { email := r.1
             credits_used := r.2
             addon_used := r.2 - baseCredits
             proposed_cap := r.2 - baseCredits + buffer
             total_available := baseCredits + (r.2 - baseCredits + buffer) }
    else none)

/-- Whether an `Except` result is the raised-exception case. -/
def isErr {α : Type} : Except String α → Bool
  | Except.error _ => true
  | Except.ok _ => false

/-- The keys of a request body, in insertion order. -/
def keysOf (p : Payload) : List String := p.map Prod.fst

/-- Whether a key is one of the three target-selection fields. -/
def isTargetKey (k : String) : Bool :=
  k == "team_level" || k == "group_id" || k == "user_email"

/-- Whether a key is one of the two cap-update fields. -/
def isUpdateKey (k : String) : Bool :=
  k == "set_add_on_credit_cap" || k == "clear_add_on_credit_cap"

/-- No key of the body carries an explicit JSON null. -/
def noNullVals (p : Payload) : Bool :=
  p.all (fun kv => !(kv.2 == JsonVal.null))

/-- Substring containment, used to state what an error message mentions. -/
def containsStr (s sub : String) : Prop :=
  ∃ pre post : String, s = pre ++ sub ++ post

/-- C1: the bulk cap calculator equals the reference definition: for every
input sequence, threshold, buffer and base credits it selects exactly the rows
strictly above the threshold, preserves their order, and annotates each with
`addonUsed = creditsUsed - baseCredits`, `proposedCap = addonUsed + buffer`,
`totalAvailable = baseCredits + proposedCap`, with exact integer arithmetic
and no clamping. -/
theorem bulk_cap_calc_eq_ref (rows : List (String × Int))
    (threshold buffer baseCredits : Int) :
    bulk_cap_calc rows threshold buffer baseCredits =
      bulk_cap_calc_ref rows threshold buffer baseCredits := by
  induction rows with
  | nil => rfl
  | cons r rs ih =>
    unfold bulk_cap_calc bulk_cap_calc_ref at *
    by_cases h : r.2 > threshold <;>
      simp [List.filter_cons, List.filterMap_cons, h] at * <;>
      exact ih

/-- C5: on the concrete rows `[(a, 1500), (b, 800), (c, 2000)]` with
`threshold = 1000`, `buffer = 500`, `baseCredits = 500`, the calculator
selects exactly `a` and `c`, annotating `a` with 1000/1500/2000 and `c` with
1500/2000/2500. -/
theorem bulk_cap_calc_example :
    bulk_cap_calc [("a", 1500), ("b", 800), ("c", 2000)] 1000 500 500 =
      [{ email := "a", credits_used := 1500, addon_used := 1000,
         proposed_cap := 1500, total_available := 2000 },
       { email := "c", credits_used := 2000, addon_used := 1500,
         proposed_cap := 2000, total_available := 2500 }] := by
  decide

/-- C2 counterexample: a config-read call with both `team_level = True` and a
`user_email` populated, and a config-write call with both
`set_add_on_credit_cap` and `clear_add_on_credit_cap` supplied, both succeed
(one network call, no `WindsurfAPIError`), so the more-than-one-selected case
is not rejected. -/
theorem multi_target_not_rejected :
    get_usage_config (some "key") true none (some "user@example.com")
        (fun _ => { status := 200, text := "ok", body := [] }) =
      (Except.ok [], 1)
    ∧ set_usage_config (some "key") (some 100) true true none none
        (fun _ => { status := 200, text := "ok", body := [] }) =
      (Except.ok [], 1) := by
  constructor <;> rfl

/-- C2 (amended): when more than one target variant is populated the call does
not fail: the `if/elif` chain silently resolves by priority `team_level`, then
`group_id`, then `user_email`; likewise when both update variants are supplied
the write silently uses `clear_add_on_credit_cap`.  Only the zero-populated
case is a caller error. -/
theorem multi_target_priority_resolution (k : String) (hk : ¬ k = "")
    (gid ue : Option String) (n : Int) :
    get_usage_config_payload (some k) true gid ue =
      Except.ok [("service_key", JsonVal.str k), ("team_level", JsonVal.bool true)]
    ∧ set_usage_config_payload (some k) (some n) true true gid ue =
      Except.ok [("service_key", JsonVal.str k),
                 ("clear_add_on_credit_cap", JsonVal.bool true),
                 ("team_level", JsonVal.bool true)]
    ∧ (optStrTruthy gid = true →
        get_usage_config_payload (some k) false gid ue =
          Except.ok [("service_key", JsonVal.str k),
                     ("group_id", JsonVal.str (gid.getD ""))]) := by
  refine ⟨?_, ?_, ?_⟩
  · simp [get_usage_config_payload, get_service_key, hk]
  · simp [set_usage_config_payload, get_service_key, hk]
  · intro h
    simp [get_usage_config_payload, get_service_key, hk, h]

/-- Witness for C2's amended theorem at a concrete input. -/
theorem multi_target_priority_resolution_witness :
    get_usage_config_payload (some "key") true (some "g") (some "u") =
      Except.ok [("service_key", JsonVal.str "key"), ("team_level", JsonVal.bool true)]
    ∧ set_usage_config_payload (some "key") (some 7) true true (some "g") (some "u") =
      Except.ok [("service_key", JsonVal.str "key"),
                 ("clear_add_on_credit_cap", JsonVal.bool true),
                 ("team_level", JsonVal.bool true)]
    ∧ (optStrTruthy (some "g") = true →
        get_usage_config_payload (some "key") false (some "g") (some "u") =
          Except.ok [("service_key", JsonVal.str "key"),
                     ("group_id", JsonVal.str ((some "g").getD ""))]) :=
  multi_target_priority_resolution "key" (by decide) (some "g") (some "u") 7

/-- C4: the update-shape check of `set_usage_config` runs before the target
check: with neither `set_add_on_credit_cap` nor `clear_add_on_credit_cap`
supplied, the call fails with the update-shape message for every target,
including a valid `team_level = True`. -/
theorem update_check_precedes_target_check (k : String) (hk : ¬ k = "")
    (team_level : Bool) (gid ue : Option String) :
    set_usage_config_payload (some k) none false team_level gid ue =
      Except.error "Must specify either set_add_on_credit_cap or clear_add_on_credit_cap" := by
  simp [set_usage_config_payload, get_service_key, hk]

/-- Witness for C4 at `team_level = true` with no update supplied. -/
theorem update_check_precedes_target_check_witness :
    set_usage_config_payload (some "key") none false true none none =
      Except.error "Must specify either set_add_on_credit_cap or clear_add_on_credit_cap" :=
  update_check_precedes_target_check "key" (by decide) true none none

/-- C10: presence of the set-value is an is-not-None test, not truthiness: for
every integer `n`, including 0 and negatives, `set_add_on_credit_cap = n`
passes the update-shape validation and `n` is placed in the payload. -/
theorem set_cap_is_not_none_test (k : String) (hk : ¬ k = "") (n : Int) :
    set_usage_config_payload (some k) (some n) false true none none =
      Except.ok [("service_key", JsonVal.str k),
                 ("set_add_on_credit_cap", JsonVal.int n),
                 ("team_level", JsonVal.bool true)] := by
  simp [set_usage_config_payload, get_service_key, hk]

/-- Witness for C10 at the boundary value `n = 0`. -/
theorem set_cap_is_not_none_test_witness :
    set_usage_config_payload (some "key") (some 0) false true none none =
      Except.ok [("service_key", JsonVal.str "key"),
                 ("set_add_on_credit_cap", JsonVal.int 0),
                 ("team_level", JsonVal.bool true)] :=
  set_cap_is_not_none_test "key" (by decide) 0

/-- C3: a config-read or config-write call populating none of `team_level`,
`group_id`, `user_email` fails (a `WindsurfAPIError` is raised) and makes zero
network calls; with a valid credential the error is the target caller-error
message. -/
theorem no_target_fails_before_network
    (sk : Option String) (gid ue : Option String) (cap : Option Int) (clr : Bool)
    (netC netS : Payload → ConfigResponse) (k : String)
    (hg : optStrTruthy gid = false) (hu : optStrTruthy ue = false) (hk : ¬ k = "") :
    (isErr (get_usage_config sk false gid ue netC).1 = true
      ∧ (get_usage_config sk false gid ue netC).2 = 0)
    ∧ (get_usage_config (some k) false gid ue netC).1 =
        Except.error "Must specify one of: team_level, group_id, or user_email"
    ∧ (isErr (set_usage_config sk cap clr false gid ue netS).1 = true
      ∧ (set_usage_config sk cap clr false gid ue netS).2 = 0)
    ∧ (set_usage_config (some k) cap true false gid ue netS).1 =
        Except.error "Must specify one of: team_level, group_id, or user_email" := by
  have hget : ∀ sk', isErr (get_usage_config_payload sk' false gid ue) = true := by
    intro sk'
    cases sk' with
    | none => rfl
    | some s =>
      by_cases hs : s = "" <;>
        simp [get_usage_config_payload, get_service_key, hs, hg, hu, isErr]
  have hset : ∀ sk' cap' clr',
      isErr (set_usage_config_payload sk' cap' clr' false gid ue) = true := by
    intro sk' cap' clr'
    cases sk' with
    | none => rfl
    | some s =>
      by_cases hs : s = "" <;> cases clr' <;> cases cap' <;>
        simp [set_usage_config_payload, get_service_key, hs, hg, hu, isErr]
  refine ⟨⟨?_, ?_⟩, ?_, ⟨?_, ?_⟩, ?_⟩
  · cases hp : get_usage_config_payload sk false gid ue with
    | error e => simp [get_usage_config, hp, isErr]
    | ok p =>
      have h := hget sk
      rw [hp] at h
      simp [isErr] at h
  · cases hp : get_usage_config_payload sk false gid ue with
    | error e => simp [get_usage_config, hp]
    | ok p =>
      have h := hget sk
      rw [hp] at h
      simp [isErr] at h
  · simp [get_usage_config, get_usage_config_payload, get_service_key, hk, hg, hu]
  · cases hp : set_usage_config_payload sk cap clr false gid ue with
    | error e => simp [set_usage_config, hp, isErr]
    | ok p =>
      have h := hset sk cap clr
      rw [hp] at h
      simp [isErr] at h
  · cases hp : set_usage_config_payload sk cap clr false gid ue with
    | error e => simp [set_usage_config, hp]
    | ok p =>
      have h := hset sk cap clr
      rw [hp] at h
      simp [isErr] at h
  · simp [set_usage_config, set_usage_config_payload, get_service_key, hk, hg, hu]

/-- Witness for C3 at a concrete no-target call. -/
theorem no_target_fails_before_network_witness :
    (isErr (get_usage_config (some "key") false none none
        (fun _ => { status := 200, text := "ok", body := [] })).1 = true
      ∧ (get_usage_config (some "key") false none none
        (fun _ => { status := 200, text := "ok", body := [] })).2 = 0)
    ∧ (get_usage_config (some "key") false none none
        (fun _ => { status := 200, text := "ok", body := [] })).1 =
        Except.error "Must specify one of: team_level, group_id, or user_email"
    ∧ (isErr (set_usage_config (some "key") (some 100) false false none none
        (fun _ => { status := 200, text := "ok", body := [] })).1 = true
      ∧ (set_usage_config (some "key") (some 100) false false none none
        (fun _ => { status := 200, text := "ok", body := [] })).2 = 0)
    ∧ (set_usage_config (some "key") (some 100) true false none none
        (fun _ => { status := 200, text := "ok", body := [] })).1 =
        Except.error "Must specify one of: team_level, group_id, or user_email" :=
  no_target_fails_before_network (some "key") none none (some 100) false
    (fun _ => { status := 200, text := "ok", body := [] })
    (fun _ => { status := 200, text := "ok", body := [] })
    "key" rfl rfl (by decide)

/-- C6: on a successful (2xx) response whose JSON body lacks the
`userTableStats` field, `get_team_users` returns the empty list rather than
an error. -/
theorem missing_user_table_stats_empty (k : String)
    (gn st et : Option String) (resp : TeamUsersResponse)
    (hk : ¬ k = "") (h2 : is2xx resp.status = true)
    (habs : resp.userTableStats = none) :
    (get_team_users (some k) gn st et (fun _ => resp)).1 = Except.ok [] := by
  simp [get_team_users, get_team_users_payload, get_service_key, hk,
        handle_team_users_response, h2, habs]

/-- Witness for C6: a 200 response with no `userTableStats` field. -/
theorem missing_user_table_stats_empty_witness :
    (get_team_users (some "key") none none none
        (fun _ => { status := 200, text := "ok", userTableStats := none })).1 =
      Except.ok [] :=
  missing_user_table_stats_empty "key" none none none
    { status := 200, text := "ok", userTableStats := none }
    (by decide) rfl rfl

/-- C8: with the credential absent (unset or empty), every one of the three
operations fails with the message identifying the missing credential, before
any network call, for all arguments; the message mentions the credential
variable. -/
theorem missing_service_key_fails_before_network
    (sk : Option String) (team_level : Bool) (gid ue : Option String)
    (cap : Option Int) (clr : Bool) (gn st et : Option String)
    (netC netS : Payload → ConfigResponse) (netT : Payload → TeamUsersResponse)
    (habs : sk = none ∨ sk = some "") :
    get_usage_config sk team_level gid ue netC =
      (Except.error "WINDSURF_SERVICE_KEY not found in environment", 0)
    ∧ set_usage_config sk cap clr team_level gid ue netS =
      (Except.error "WINDSURF_SERVICE_KEY not found in environment", 0)
    ∧ get_team_users sk gn st et netT =
      (Except.error "WINDSURF_SERVICE_KEY not found in environment", 0)
    ∧ containsStr "WINDSURF_SERVICE_KEY not found in environment"
        "WINDSURF_SERVICE_KEY" := by
  refine ⟨?_, ?_, ?_, "", " not found in environment", by decide⟩ <;>
    rcases habs with h | h <;> subst h <;>
      simp [get_usage_config, set_usage_config, get_team_users,
            get_usage_config_payload, set_usage_config_payload,
            get_team_users_payload, get_service_key]

/-- Witness for C8 with an empty credential. -/
theorem missing_service_key_fails_before_network_witness :
    get_usage_config (some "") true none none
        (fun _ => { status := 200, text := "ok", body := [] }) =
      (Except.error "WINDSURF_SERVICE_KEY not found in environment", 0)
    ∧ set_usage_config (some "") (some 100) false true none none
        (fun _ => { status := 200, text := "ok", body := [] }) =
      (Except.error "WINDSURF_SERVICE_KEY not found in environment", 0)
    ∧ get_team_users (some "") none none none
        (fun _ => { status := 200, text := "ok", userTableStats := none }) =
      (Except.error "WINDSURF_SERVICE_KEY not found in environment", 0)
    ∧ containsStr "WINDSURF_SERVICE_KEY not found in environment"
        "WINDSURF_SERVICE_KEY" :=
  missing_service_key_fails_before_network (some "") true none none
    (some 100) false none none none
    (fun _ => { status := 200, text := "ok", body := [] })
    (fun _ => { status := 200, text := "ok", body := [] })
    (fun _ => { status := 200, text := "ok", userTableStats := none })
    (Or.inr rfl)

/-- The HTTP error message contains the numeric status code. -/
theorem httpErrMsg_contains_status (st : Nat) (t : String) :
    containsStr (httpErrMsg st t) (toString st) := by
  refine ⟨"HTTP error: ", " - " ++ t, ?_⟩
  simp [httpErrMsg, String.append_assoc]

/-- The HTTP error message contains the response body text. -/
theorem httpErrMsg_contains_text (st : Nat) (t : String) :
    containsStr (httpErrMsg st t) t := by
  refine ⟨"HTTP error: " ++ toString st ++ " - ", "", ?_⟩
  simp [httpErrMsg, String.append_assoc, String.append_empty]

/-- C7: any of the three operations, on a validated request that receives a
non-2xx response, raises a `WindsurfAPIError` whose message contains both the
numeric status code and the response body text. -/
theorem non_2xx_error_message
    (sk : Option String) (team_level : Bool) (gid ue : Option String)
    (cap : Option Int) (clr : Bool) (gn st et : Option String)
    (respC respS : ConfigResponse) (respT : TeamUsersResponse)
    (hC : isErr (get_usage_config_payload sk team_level gid ue) = false)
    (hS : isErr (set_usage_config_payload sk cap clr team_level gid ue) = false)
    (hT : isErr (get_team_users_payload sk gn st et) = false)
    (h2C : is2xx respC.status = false) (h2S : is2xx respS.status = false)
    (h2T : is2xx respT.status = false) :
    ((get_usage_config sk team_level gid ue (fun _ => respC)).1 =
        Except.error (httpErrMsg respC.status respC.text)
      ∧ containsStr (httpErrMsg respC.status respC.text) (toString respC.status)
      ∧ containsStr (httpErrMsg respC.status respC.text) respC.text)
    ∧ ((set_usage_config sk cap clr team_level gid ue (fun _ => respS)).1 =
        Except.error (httpErrMsg respS.status respS.text)
      ∧ containsStr (httpErrMsg respS.status respS.text) (toString respS.status)
      ∧ containsStr (httpErrMsg respS.status respS.text) respS.text)
    ∧ ((get_team_users sk gn st et (fun _ => respT)).1 =
        Except.error (httpErrMsg respT.status respT.text)
      ∧ containsStr (httpErrMsg respT.status respT.text) (toString respT.status)
      ∧ containsStr (httpErrMsg respT.status respT.text) respT.text) := by
  refine ⟨⟨?_, httpErrMsg_contains_status _ _, httpErrMsg_contains_text _ _⟩,
          ⟨?_, httpErrMsg_contains_status _ _, httpErrMsg_contains_text _ _⟩,
          ⟨?_, httpErrMsg_contains_status _ _, httpErrMsg_contains_text _ _⟩⟩
  · cases hp : get_usage_config_payload sk team_level gid ue with
    | error e => rw [hp] at hC; simp [isErr] at hC
    | ok p => simp [get_usage_config, hp, handle_config_response, h2C]
  · cases hp : set_usage_config_payload sk cap clr team_level gid ue with
    | error e => rw [hp] at hS; simp [isErr] at hS
    | ok p => simp [set_usage_config, hp, handle_config_response, h2S]
  · cases hp : get_team_users_payload sk gn st et with
    | error e => rw [hp] at hT; simp [isErr] at hT
    | ok p => simp [get_team_users, hp, handle_team_users_response, h2T]

/-- Witness for C7: valid calls receiving a 404 response. -/
theorem non_2xx_error_message_witness :
    ((get_usage_config (some "key") true none none
        (fun _ => { status := 404, text := "not found", body := [] })).1 =
        Except.error (httpErrMsg 404 "not found")
      ∧ containsStr (httpErrMsg 404 "not found") (toString 404)
      ∧ containsStr (httpErrMsg 404 "not found") "not found")
    ∧ ((set_usage_config (some "key") (some 100) false true none none
        (fun _ => { status := 500, text := "boom", body := [] })).1 =
        Except.error (httpErrMsg 500 "boom")
      ∧ containsStr (httpErrMsg 500 "boom") (toString 500)
      ∧ containsStr (httpErrMsg 500 "boom") "boom")
    ∧ ((get_team_users (some "key") none none none
        (fun _ => { status := 403, text := "denied", userTableStats := none })).1 =
        Except.error (httpErrMsg 403 "denied")
      ∧ containsStr (httpErrMsg 403 "denied") (toString 403)
      ∧ containsStr (httpErrMsg 403 "denied") "denied") :=
  non_2xx_error_message (some "key") true none none (some 100) false
    none none none
    { status := 404, text := "not found", body := [] }
    { status := 500, text := "boom", body := [] }
    { status := 403, text := "denied", userTableStats := none }
    rfl rfl rfl rfl rfl rfl

/-- A validated `get_usage_config` body holds the credential once, exactly one
target key, nothing else, and no nulls. -/
theorem get_payload_fields (sk : Option String) (team_level : Bool)
    (gid ue : Option String) (p : Payload)
    (h : get_usage_config_payload sk team_level gid ue = Except.ok p) :
    (keysOf p).count "service_key" = 1
    ∧ ((keysOf p).filter isTargetKey).length = 1
    ∧ (keysOf p).all (fun k => k == "service_key" || isTargetKey k) = true
    ∧ noNullVals p = true := by
  cases sk with
  | none => simp [get_usage_config_payload, get_service_key] at h
  | some s =>
    by_cases hs : s = ""
    · simp [get_usage_config_payload, get_service_key, hs] at h
    · cases team_level <;> cases hgid : optStrTruthy gid <;>
        cases hue : optStrTruthy ue <;>
        simp [get_usage_config_payload, get_service_key, hs, hgid, hue] at h <;>
        subst h <;>
        exact ⟨rfl, rfl, rfl, rfl⟩

/-- A validated `set_usage_config` body holds the credential once, exactly one
update key, exactly one target key, nothing else, and no nulls. -/
theorem set_payload_fields (sk : Option String) (cap : Option Int) (clr : Bool)
    (team_level : Bool) (gid ue : Option String) (q : Payload)
    (h : set_usage_config_payload sk cap clr team_level gid ue = Except.ok q) :
    (keysOf q).count "service_key" = 1
    ∧ ((keysOf q).filter isUpdateKey).length = 1
    ∧ ((keysOf q).filter isTargetKey).length = 1
    ∧ (keysOf q).all
        (fun k => k == "service_key" || isUpdateKey k || isTargetKey k) = true
    ∧ noNullVals q = true := by
  cases sk with
  | none => simp [set_usage_config_payload, get_service_key] at h
  | some s =>
    by_cases hs : s = ""
    · simp [set_usage_config_payload, get_service_key, hs] at h
    · cases clr <;> cases cap <;> cases team_level <;>
        cases hgid : optStrTruthy gid <;> cases hue : optStrTruthy ue <;>
        simp [set_usage_config_payload, get_service_key, hs, hgid, hue] at h <;>
        subst h <;>
        exact ⟨rfl, rfl, rfl, rfl, rfl⟩

/-- A `get_team_users` body holds the credential once and each optional filter
key exactly when the corresponding argument is truthy, nothing else, and no
nulls. -/
theorem team_users_payload_fields (sk : Option String)
    (gn st et : Option String) (r : Payload)
    (h : get_team_users_payload sk gn st et = Except.ok r) :
    (keysOf r).count "service_key" = 1
    ∧ (("group_name" ∈ keysOf r) ↔ optStrTruthy gn = true)
    ∧ (("start_timestamp" ∈ keysOf r) ↔ optStrTruthy st = true)
    ∧ (("end_timestamp" ∈ keysOf r) ↔ optStrTruthy et = true)
    ∧ (keysOf r).all (fun k => k == "service_key" || k == "group_name"
        || k == "start_timestamp" || k == "end_timestamp") = true
    ∧ noNullVals r = true := by
  cases sk with
  | none => simp [get_team_users_payload, get_service_key] at h
  | some s =>
    by_cases hs : s = ""
    · simp [get_team_users_payload, get_service_key, hs] at h
    · cases hgn : optStrTruthy gn <;> cases hst : optStrTruthy st <;>
        cases het : optStrTruthy et <;>
        simp [get_team_users_payload, get_service_key, hs, hgn, hst, het] at h <;>
        subst h <;>
        refine ⟨rfl, ?_, ?_, ?_, rfl, rfl⟩ <;>
        simp [keysOf]

/-- C9: every validated request body contains the credential plus exactly the
populated optional fields and no others: config bodies hold exactly one of
the three target keys, write bodies additionally exactly one of the two
update keys, `get_team_users` bodies hold each filter key exactly when the
filter is supplied (truthy), and no key carries an explicit null. -/
theorem payload_exact_fields
    (sk : Option String) (team_level : Bool) (gid ue : Option String)
    (cap : Option Int) (clr : Bool) (gn st et : Option String)
    (p q r : Payload)
    (hp : get_usage_config_payload sk team_level gid ue = Except.ok p)
    (hq : set_usage_config_payload sk cap clr team_level gid ue = Except.ok q)
    (hr : get_team_users_payload sk gn st et = Except.ok r) :
    ((keysOf p).count "service_key" = 1
      ∧ ((keysOf p).filter isTargetKey).length = 1
      ∧ (keysOf p).all (fun k => k == "service_key" || isTargetKey k) = true
      ∧ noNullVals p = true)
    ∧ ((keysOf q).count "service_key" = 1
      ∧ ((keysOf q).filter isUpdateKey).length = 1
      ∧ ((keysOf q).filter isTargetKey).length = 1
      ∧ (keysOf q).all
          (fun k => k == "service_key" || isUpdateKey k || isTargetKey k) = true
      ∧ noNullVals q = true)
    ∧ ((keysOf r).count "service_key" = 1
      ∧ (("group_name" ∈ keysOf r) ↔ optStrTruthy gn = true)
      ∧ (("start_timestamp" ∈ keysOf r) ↔ optStrTruthy st = true)
      ∧ (("end_timestamp" ∈ keysOf r) ↔ optStrTruthy et = true)
      ∧ (keysOf r).all (fun k => k == "service_key" || k == "group_name"
          || k == "start_timestamp" || k == "end_timestamp") = true
      ∧ noNullVals r = true) :=
  ⟨get_payload_fields sk team_level gid ue p hp,
   set_payload_fields sk cap clr team_level gid ue q hq,
   team_users_payload_fields sk gn st et r hr⟩

/-- Witness for C9: a team-level read, a set-cap write, and a filtered user
list, with their concrete bodies. -/
theorem payload_exact_fields_witness :
    (((keysOf [("service_key", JsonVal.str "key"),
               ("team_level", JsonVal.bool true)]).count "service_key" = 1
      ∧ ((keysOf [("service_key", JsonVal.str "key"),
               ("team_level", JsonVal.bool true)]).filter isTargetKey).length = 1
      ∧ (keysOf [("service_key", JsonVal.str "key"),
               ("team_level", JsonVal.bool true)]).all
          (fun k => k == "service_key" || isTargetKey k) = true
      ∧ noNullVals [("service_key", JsonVal.str "key"),
               ("team_level", JsonVal.bool true)] = true)
    ∧ ((keysOf [("service_key", JsonVal.str "key"),
               ("set_add_on_credit_cap", JsonVal.int 100),
               ("team_level", JsonVal.bool true)]).count "service_key" = 1
      ∧ ((keysOf [("service_key", JsonVal.str "key"),
               ("set_add_on_credit_cap", JsonVal.int 100),
               ("team_level", JsonVal.bool true)]).filter isUpdateKey).length = 1
      ∧ ((keysOf [("service_key", JsonVal.str "key"),
               ("set_add_on_credit_cap", JsonVal.int 100),
               ("team_level", JsonVal.bool true)]).filter isTargetKey).length = 1
      ∧ (keysOf [("service_key", JsonVal.str "key"),
               ("set_add_on_credit_cap", JsonVal.int 100),
               ("team_level", JsonVal.bool true)]).all
          (fun k => k == "service_key" || isUpdateKey k || isTargetKey k) = true
      ∧ noNullVals [("service_key", JsonVal.str "key"),
               ("set_add_on_credit_cap", JsonVal.int 100),
               ("team_level", JsonVal.bool true)] = true)
    ∧ ((keysOf [("service_key", JsonVal.str "key"),
               ("group_name", JsonVal.str "g"),
               ("end_timestamp", JsonVal.str "2024-01-01T00:00:00Z")]).count
          "service_key" = 1
      ∧ (("group_name" ∈ keysOf [("service_key", JsonVal.str "key"),
               ("group_name", JsonVal.str "g"),
               ("end_timestamp", JsonVal.str "2024-01-01T00:00:00Z")]) ↔
          optStrTruthy (some "g") = true)
      ∧ (("start_timestamp" ∈ keysOf [("service_key", JsonVal.str "key"),
               ("group_name", JsonVal.str "g"),
               ("end_timestamp", JsonVal.str "2024-01-01T00:00:00Z")]) ↔
          optStrTruthy none = true)
      ∧ (("end_timestamp" ∈ keysOf [("service_key", JsonVal.str "key"),
               ("group_name", JsonVal.str "g"),
               ("end_timestamp", JsonVal.str "2024-01-01T00:00:00Z")]) ↔
          optStrTruthy (some "2024-01-01T00:00:00Z") = true)
      ∧ (keysOf [("service_key", JsonVal.str "key"),
               ("group_name", JsonVal.str "g"),
               ("end_timestamp", JsonVal.str "2024-01-01T00:00:00Z")]).all
          (fun k => k == "service_key" || k == "group_name"
            || k == "start_timestamp" || k == "end_timestamp") = true
      ∧ noNullVals [("service_key", JsonVal.str "key"),
               ("group_name", JsonVal.str "g"),
               ("end_timestamp", JsonVal.str "2024-01-01T00:00:00Z")] = true)) :=
  payload_exact_fields (some "key") true none none (some 100) false
    (some "g") none (some "2024-01-01T00:00:00Z")
    [("service_key", JsonVal.str "key"), ("team_level", JsonVal.bool true)]
    [("service_key", JsonVal.str "key"),
     ("set_add_on_credit_cap", JsonVal.int 100),
     ("team_level", JsonVal.bool true)]
    [("service_key", JsonVal.str "key"),
     ("group_name", JsonVal.str "g"),
     ("end_timestamp", JsonVal.str "2024-01-01T00:00:00Z")]
    rfl rfl rfl
